import Mathlib

/-!
Verification of the `deno_mysql` connection/protocol engine
(`src/connection.ts`) via a shallow embedding.

The repository ships `connection.ts`; the packet framer, byte cursor and
the parsers/builders it imports are external collaborators whose sources
are not present, so those leaves are modelled from the specification
(each such definition carries a doc comment starting `Modelled from the
spec:`).  Socket reads are modelled as a list of `ReadEvent`s: each call
of `nextPacket` consumes the next event, which says whether the read
produced a packet, found the stream half-closed, failed with an IO
error, or was aborted by the response-timeout callback.
-/

namespace DenoMysql

/-- Connection state, from the `ConnectionState` enum in `connection.ts`. -/
inductive ConnectionState where
  | CONNECTING
  | CONNECTED
  | CLOSING
  | CLOSED
deriving DecidableEq, Repr

/-- Packet classification.  Modelled from the spec: the framer classifies a
payload by leading byte into OK / ERR / EOF / RESULT. -/
inductive PType where
  | OK
  | ERR
  | EOF
  | RESULT
deriving DecidableEq, Repr

/-- A received packet: its reassembled payload bytes.  (Framing — the
4-byte header and 16MB-1 chunking — is below the level the claims are
about; `nextPacket` consumes already-unframed packets.) -/
structure Packet where
  body : List Nat
deriving DecidableEq, Repr

/-- Modelled from the spec: payload classification by leading byte
(`packet.ts` is absent from `src/`): first byte 0x00 → OK, 0xff → ERR,
0xfe with body length < 9 → EOF, else RESULT. -/
def classify (b : List Nat) : PType :=
  match b with
  | [] => PType.RESULT
  | h :: t =>
    if h = 0x00 then PType.OK
    else if h = 0xff then PType.ERR
    else if h = 0xfe then (if t.length + 1 < 9 then PType.EOF else PType.RESULT)
    else PType.RESULT

/-- Little-endian byte-list value. -/
def leBytes : List Nat → Nat
  | [] => 0
  | b :: r => b + 256 * leBytes r

/-- Modelled from the spec: `readEncodedLen` of the byte cursor
(`buffer.ts` is absent from `src/`): 1-byte literal < 0xfb; 0xfb alone =
NULL, treated as 0; 0xfc + 2 bytes; 0xfd + 3 bytes; 0xfe + 8 bytes, all
little-endian.  Reading past the end is a decode error (`none`). -/
def readEncodedLen (b : List Nat) : Option (Nat × List Nat) :=
  match b with
  | [] => none
  | fb :: rest =>
    if fb < 0xfb then some (fb, rest)
    else if fb = 0xfb then some (0, rest)
    else if fb = 0xfc then
      match rest with
      | a :: b2 :: r => some (leBytes [a, b2], r)
      | _ => none
    else if fb = 0xfd then
      match rest with
      | a :: b2 :: c :: r => some (leBytes [a, b2, c], r)
      | _ => none
    else if fb = 0xfe then
      match rest with
      | a :: b2 :: c :: d :: e :: f :: g :: h :: r =>
        some (leBytes [a, b2, c, d, e, f, g, h], r)
      | _ => none
    else none

/-- Modelled from the spec: the error parser (`parsers/err.ts` is absent
from `src/`).  Given a payload positioned just past the 0xff marker:
a 2-byte code, an optional SQL-state marker (`#` plus five bytes), then
the remainder as the message. -/
structure ErrPacket where
  code : Nat
  message : List Nat
deriving DecidableEq, Repr

/-- Modelled from the spec: decode an ERR payload (cursor already past
the leading 0xff byte) into `{code, message}`. -/
def parseError (b : List Nat) : ErrPacket :=
  let code := leBytes (b.take 2)
  let rest := b.drop 2
  let message := if rest.head? = some 0x23 then rest.drop 6 else rest
  ⟨code, message⟩

/-- Modelled from the spec: `FieldInfo` is the column metadata decoded
from one field-definition packet (`parsers/result.ts` is absent from
`src/`; the spec gives the fields but not the byte layout, so the model
carries the raw payload the parser consumed). -/
structure FieldInfo where
  raw : List Nat
deriving DecidableEq, Repr

/-- Modelled from the spec: `parseField` decodes a field-definition
payload into a `FieldInfo`. -/
def parseField (b : List Nat) : FieldInfo := ⟨b⟩

/-- Modelled from the spec: a decoded row — the row payload decoded
using the captured field list (column order authoritative). -/
structure Row where
  raw : List Nat
  fields : List FieldInfo
deriving DecidableEq, Repr

/-- Modelled from the spec: `parseRow` decodes a row payload using the
captured field list. -/
def parseRow (b : List Nat) (fs : List FieldInfo) : Row := ⟨b, fs⟩

/-- Result of `execute`, from the `ExecuteResult` type in
`connection.ts`: all four members optional. -/
structure ExecuteResult where
  affectedRows : Option Nat
  lastInsertId : Option Nat
  fields : Option (List FieldInfo)
  rows : Option (List Row)
deriving DecidableEq, Repr

/-- The slice of `ClientConfig` that `connection.ts` reads:
`charset` (optional) and `timeout` (optional, 0 falsy in JS). -/
structure ClientConfig where
  charset : Option String
  timeout : Option Nat
deriving DecidableEq, Repr

/-- The duration armed for the read timer: `this.config.timeout || 30000`
(JS `||`: both `undefined` and `0` fall back to 30000). -/
def armedTimeout (cfg : ClientConfig) : Nat :=
  match cfg.timeout with
  | none => 30000
  | some t => if t = 0 then 30000 else t

/-- JS `<` on strings: lexicographic comparison of code units. -/
def listCharLt : List Char → List Char → Bool
  | [], [] => false
  | [], _ :: _ => true
  | _ :: _, [] => false
  | a :: as, b :: bs =>
    if a.val < b.val then true
    else if b.val < a.val then false
    else listCharLt as bs

/-- JS string `<` (lexicographic by code unit). -/
def jsLt (a b : String) : Bool := listCharLt a.data b.data

/-- Whether `p` is a leading subsequence of `s` (character lists). -/
def hasPrefixL : List Char → List Char → Bool
  | _, [] => true
  | [], _ :: _ => false
  | a :: as, b :: bs => a = b && hasPrefixL as bs

/-- Whether `p` occurs contiguously inside `s` — JS `String.includes`. -/
def hasSubstrL : List Char → List Char → Bool
  | [], p => hasPrefixL [] p
  | a :: as, p => hasPrefixL (a :: as) p || hasSubstrL as p

/-- JS `s.includes(pat)`. -/
def includesStr (s pat : String) : Bool := hasSubstrL s.data pat.data

/-- JS `s.split("-")` (single-character separator): accumulate the
current segment; a `-` ends it. -/
def splitDashAux (cur : List Char) : List Char → List (List Char)
  | [] => [cur.reverse]
  | c :: cs =>
    if c = '-' then cur.reverse :: splitDashAux [] cs
    else splitDashAux (c :: cur) cs

/-- JS `version.split("-")` as strings. -/
def splitDash (s : String) : List String :=
  (splitDashAux [] s.data).map fun l => String.mk l

/-- `lessThan57` from `connection.ts`: plain JS string comparison with
"5.7.0" unless the version mentions MariaDB; for `x.y.z-MariaDB-…`
forms compare the segment before the first `-`; any other MariaDB form
(MariaDB 10+, `5.5.5-x.y.z-MariaDB-…`) is never less than 5.7. -/
def lessThan57 (version : String) : Bool :=
  if !(includesStr version "MariaDB") then jsLt version "5.7.0"
  else
    let segments := splitDash version
    if segments.get? 1 = some "MariaDB" then jsLt (segments.getD 0 "") "5.7.0"
    else false

/-- The mutable fields of `Connection`: the state-machine state,
the recorded server capabilities and version, whether `this.conn` is
set (`connOpen`), whether the underlying socket is still open
(`sockOpen`), and the `_timedOut` flag. -/
structure Conn where
  state : ConnectionState
  capabilities : Nat
  serverVersion : String
  connOpen : Bool
  sockOpen : Bool
  timedOut : Bool
deriving DecidableEq, Repr

/-- Modelled from the spec: the TCP socket collaborator's `close`
(§6 lists the socket primitive's interface — connect, buffered read,
write, close — with no failure mode), so closing is total and simply
marks the socket closed. -/
def socketClose (c : Conn) : Conn := { c with sockOpen := false }

/-- `close()` from `connection.ts`: set state to CLOSING, close the
socket if `this.conn` is set, set state to CLOSED.  The method is
synchronous (no suspension points), so it is one atomic step of the
model. -/
def close (c : Conn) : Conn :=
  let c1 := { c with state := ConnectionState.CLOSING }
  let c2 := if c1.connOpen then socketClose c1 else c1
  { c2 with state := ConnectionState.CLOSED }

/-- Errors `connection.ts` can surface.  `conn`/`read`/`timeout` carry
the literal message strings of `ConnnectionError`/`ReadError`/
`ResponseTimeoutError`; `server` carries the server-supplied message of
a plain `Error(error.message)`; `io` is a propagated socket exception;
`decode` a cursor past-end failure; `hang` is the modelling artifact for
a read with no further scripted event (the real code would wait). -/
inductive Err where
  | conn (msg : String)
  | read (msg : String)
  | timeout (msg : String)
  | server (msg : List Nat)
  | io
  | decode
  | hang
deriving DecidableEq, Repr

/-- One outcome of awaiting `new ReceivePacket().parse(conn)`:
a packet arrived; the peer half-closed (parse returned null); the read
threw an IO error; or the response timer fired first (the callback set
`_timedOut`, force-closed the socket, and the read then threw). -/
inductive ReadEvent where
  | success (p : Packet)
  | halfClosed
  | ioError
  | timeout
deriving DecidableEq, Repr

/-- `nextPacket` from `connection.ts`, one call: fail if `this.conn` is
unset; otherwise consume the next read event.  A parsed ERR packet is
re-thrown as a plain error with the server's message (cursor skips the
0xff byte); a null packet closes and throws `ReadError`; a read failure
throws `ResponseTimeoutError` when `_timedOut` is set (the timeout
callback already closed the connection) and otherwise closes and
rethrows. -/
def nextPacket (c : Conn) (evs : List ReadEvent) :
    Conn × Except Err Packet × List ReadEvent :=
  if c.connOpen then
    match evs with
    | [] => (c, Except.error Err.hang, [])
    | ReadEvent.success p :: rest =>
      if classify p.body = PType.ERR then
        (c, Except.error (Err.server (parseError (p.body.drop 1)).message), rest)
      else (c, Except.ok p, rest)
    | ReadEvent.halfClosed :: rest =>
      (close c, Except.error (Err.read "Connection closed unexpectedly"), rest)
    | ReadEvent.ioError :: rest =>
      if c.timedOut then
        (c, Except.error (Err.timeout "Connection read timed out"), rest)
      else (close c, Except.error Err.io, rest)
    | ReadEvent.timeout :: rest =>
      (close { c with timedOut := true },
       Except.error (Err.timeout "Connection read timed out"), rest)
  else (c, Except.error (Err.conn "Not connected"), evs)

/-- The field-list loop of `execute`: `while (fieldCount--)` reads one
packet per remaining count and parses it as a `FieldInfo`. -/
def readFields (c : Conn) : Nat → List ReadEvent →
    Conn × Except Err (List FieldInfo) × List ReadEvent
  | 0, evs => (c, Except.ok [], evs)
  | n + 1, evs =>
    match nextPacket c evs with
    | (c1, Except.error e, r) => (c1, Except.error e, r)
    | (c1, Except.ok p, r) =>
      match readFields c1 n r with
      | (c2, Except.ok fs, r2) => (c2, Except.ok (parseField p.body :: fs), r2)
      | (c2, Except.error e, r2) => (c2, Except.error e, r2)

/-- The row loop of `execute`: read packets until one classifies as
EOF; every other packet is decoded as a row with the captured field
list and appended. -/
def rowLoop (c : Conn) (fs : List FieldInfo) : List ReadEvent →
    Conn × Except Err (List Row) × List ReadEvent
  | [] =>
    match nextPacket c [] with
    | (c1, Except.error e, r) => (c1, Except.error e, r)
    | (c1, Except.ok _, r) => (c1, Except.error Err.hang, r)
  | e :: rest =>
    match nextPacket c (e :: rest) with
    | (c1, Except.error err, r) => (c1, Except.error err, r)
    | (c1, Except.ok p, _) =>
      if classify p.body = PType.EOF then (c1, Except.ok [], rest)
      else
        match rowLoop c1 fs rest with
        | (c2, Except.ok rs, r2) => (c2, Except.ok (parseRow p.body fs :: rs), r2)
        | (c2, Except.error e2, r2) => (c2, Except.error e2, r2)

/-- Packaging of a finished result set: `return { rows, fields }`. -/
def finishRows (c : Conn) (fs : List FieldInfo) (evs : List ReadEvent) :
    Conn × Except Err ExecuteResult × List ReadEvent :=
  match rowLoop c fs evs with
  | (c1, Except.ok rs, r) => (c1, Except.ok ⟨none, none, some fs, some rs⟩, r)
  | (c1, Except.error e, r) => (c1, Except.error e, r)

/-- `execute(sql, params)` from `connection.ts`.  The query payload is
built by the external interpolation collaborator, so only the send's
success (`sendOk`) matters to the model.  Guard: a non-CONNECTED state
fails fast with a `ConnnectionError` ("Connection is closed" when
CLOSED, else "Must be connected first").  A send failure closes (the
state is not CLOSED) and rethrows.  An OK-classified first response is
read as `skip(1)`, `affectedRows`, `lastInsertId`; any other first
response starts the result-set path: column count, field-list loop,
one extra packet when `lessThan57()` holds, then the row loop. -/
def execute (c : Conn) (sendOk : Bool) (evs : List ReadEvent) :
    Conn × Except Err ExecuteResult × List ReadEvent :=
  if c.state = ConnectionState.CONNECTED then
    if sendOk then
      match nextPacket c evs with
      | (c1, Except.error e, r) => (c1, Except.error e, r)
      | (c1, Except.ok p, r) =>
        if classify p.body = PType.OK then
          match readEncodedLen (p.body.drop 1) with
          | none => (c1, Except.error Err.decode, r)
          | some (ar, b2) =>
            match readEncodedLen b2 with
            | none => (c1, Except.error Err.decode, r)
            | some (li, _) => (c1, Except.ok ⟨some ar, some li, none, none⟩, r)
        else
          match readEncodedLen p.body with
          | none => (c1, Except.error Err.decode, r)
          | some (n, _) =>
            match readFields c1 n r with
            | (c2, Except.error e, r2) => (c2, Except.error e, r2)
            | (c2, Except.ok fs, r2) =>
              if lessThan57 c2.serverVersion then
                match nextPacket c2 r2 with
                | (c3, Except.error e, r3) => (c3, Except.error e, r3)
                | (c3, Except.ok _, r3) => finishRows c3 fs r3
              else finishRows c2 fs r2
    else
      (if c.state ≠ ConnectionState.CLOSED then close c else c,
       Except.error Err.io, evs)
  else if c.state = ConnectionState.CLOSED then
    (c, Except.error (Err.conn "Connection is closed"), evs)
  else (c, Except.error (Err.conn "Must be connected first"), evs)

/-- `query(sql, params)` from `connection.ts`: run `execute`; if the
result has a `rows` member (even an empty array is truthy in JS),
return just the rows, otherwise the raw result. -/
def query (c : Conn) (sendOk : Bool) (evs : List ReadEvent) :
    Conn × Except Err (Sum (List Row) ExecuteResult) × List ReadEvent :=
  match execute c sendOk evs with
  | (c1, Except.ok r, rest) =>
    match r.rows with
    | some rs => (c1, Except.ok (Sum.inl rs), rest)
    | none => (c1, Except.ok (Sum.inr r), rest)
  | (c1, Except.error e, rest) => (c1, Except.error e, rest)

/-- Modelled from the spec: the handshake parser's output
(`parsers/handshake.ts` is absent from `src/`): protocol version,
server version, connection id, auth seed, capability bitmask, charset. -/
structure HandshakePacket where
  protocolVersion : Nat
  serverVersion : String
  connectionId : Nat
  authSeed : List Nat
  serverCapabilities : Nat
  charset : Nat
deriving DecidableEq, Repr

/-- `_connect` / `connect()` from `connection.ts`, with the external
collaborators as parameters: `tcpOk` is the outcome of `Deno.connect`,
`ph` the handshake parser (its source is absent from `src/`, so the
theorems quantify over it), `authSendOk` the outcome of sending the
auth response (built by the absent auth builder).  The body: read the
handshake packet, parse it, send the auth response, set state to
CONNECTING and record `serverVersion`/`capabilities`, then read the
second reply — leading byte 0xff parses the ERR, closes and throws the
server's message, otherwise state becomes CONNECTED and, when a charset
is configured, `SET NAMES` runs through `execute`.  Any throw inside
the `try` closes first unless the state is already CLOSED. -/
def connect (c : Conn) (cfg : ClientConfig) (ph : List Nat → HandshakePacket)
    (tcpOk authSendOk : Bool) (evs : List ReadEvent) :
    Conn × Except Err Unit × List ReadEvent :=
  if tcpOk then
    let c0 := { c with connOpen := true, sockOpen := true }
    let catchClose := fun (cc : Conn) (e : Err) (r : List ReadEvent) =>
      (if cc.state ≠ ConnectionState.CLOSED then close cc else cc,
       Except.error e, r)
    match nextPacket c0 evs with
    | (c1, Except.error e, r) => catchClose c1 e r
    | (c1, Except.ok p, r) =>
      let hs := ph p.body
      if authSendOk then
        let c2 := { c1 with
          state := ConnectionState.CONNECTING,
          serverVersion := hs.serverVersion,
          capabilities := hs.serverCapabilities }
        match nextPacket c2 r with
        | (c3, Except.error e, r2) => catchClose c3 e r2
        | (c3, Except.ok p2, r2) =>
          if p2.body.head? = some 0xff then
            (close c3,
             Except.error (Err.server (parseError (p2.body.drop 1)).message), r2)
          else
            let c4 := { c3 with state := ConnectionState.CONNECTED }
            match cfg.charset with
            | none => (c4, Except.ok (), r2)
            | some _ =>
              match execute c4 true r2 with
              | (c5, Except.ok _, r3) => (c5, Except.ok (), r3)
              | (c5, Except.error e, r3) => catchClose c5 e r3
      else catchClose c1 Err.io r
  else (c, Except.error Err.io, evs)

/-! ## Helper lemmas -/

theorem nextPacket_success_eq (c : Conn) (p : Packet) (rest : List ReadEvent)
    (hopen : c.connOpen = true) (hne : classify p.body ≠ PType.ERR) :
    nextPacket c (ReadEvent.success p :: rest) = (c, Except.ok p, rest) := by
  simp [nextPacket, hopen, hne]

theorem classify_head_ff (b : List Nat) (h : b.head? = some 0xff) :
    classify b = PType.ERR := by
  cases b with
  | nil => simp at h
  | cons x t =>
    simp at h
    subst h
    simp [classify]

theorem readFields_map (fps : List Packet) (c : Conn) (rest : List ReadEvent)
    (hopen : c.connOpen = true)
    (hne : ∀ p ∈ fps, classify p.body ≠ PType.ERR) :
    readFields c fps.length (fps.map ReadEvent.success ++ rest) =
      (c, Except.ok (fps.map fun p => parseField p.body), rest) := by
  induction fps generalizing rest with
  | nil => simp [readFields]
  | cons p ps ih =>
    have hp : classify p.body ≠ PType.ERR := hne p (List.mem_cons_self p ps)
    have hps : ∀ q ∈ ps, classify q.body ≠ PType.ERR :=
      fun q hq => hne q (List.mem_cons_of_mem p hq)
    simp only [List.map_cons, List.length_cons, List.cons_append, readFields,
      nextPacket_success_eq c p _ hopen hp, ih rest hps]

theorem rowLoop_map (rps : List Packet) (c : Conn) (fs : List FieldInfo)
    (eofP : Packet) (rest : List ReadEvent)
    (hopen : c.connOpen = true)
    (hne : ∀ p ∈ rps, classify p.body ≠ PType.ERR ∧ classify p.body ≠ PType.EOF)
    (heof : classify eofP.body = PType.EOF) :
    rowLoop c fs (rps.map ReadEvent.success ++ ReadEvent.success eofP :: rest) =
      (c, Except.ok (rps.map fun p => parseRow p.body fs), rest) := by
  induction rps with
  | nil =>
    have hno : classify eofP.body ≠ PType.ERR := by rw [heof]; decide
    simp only [List.map_nil, List.nil_append, rowLoop,
      nextPacket_success_eq c eofP _ hopen hno, heof, if_pos]
  | cons p ps ih =>
    have hp := hne p (List.mem_cons_self p ps)
    have hps : ∀ q ∈ ps, classify q.body ≠ PType.ERR ∧ classify q.body ≠ PType.EOF :=
      fun q hq => hne q (List.mem_cons_of_mem p hq)
    have hrec := ih hps
    simp only [List.map_cons, List.cons_append, rowLoop,
      nextPacket_success_eq c p _ hopen hp.1]
    simp [hp.2, List.append_eq, hrec]

theorem finishRows_map (rps : List Packet) (c : Conn) (fs : List FieldInfo)
    (eofP : Packet) (rest : List ReadEvent)
    (hopen : c.connOpen = true)
    (hne : ∀ p ∈ rps, classify p.body ≠ PType.ERR ∧ classify p.body ≠ PType.EOF)
    (heof : classify eofP.body = PType.EOF) :
    finishRows c fs (rps.map ReadEvent.success ++ ReadEvent.success eofP :: rest) =
      (c, Except.ok ⟨none, none, some fs, some (rps.map fun p => parseRow p.body fs)⟩,
       rest) := by
  simp [finishRows, rowLoop_map rps c fs eofP rest hopen hne heof]

/-- The result-set path of `execute`, in general form: a RESULT-classified
header whose first length-encoded integer counts the field packets, the
field-list loop, the one extra legacy-EOF packet exactly when
`lessThan57` holds, then the row loop up to the first EOF-classified
packet. -/
theorem execute_resultSet (c : Conn) (hdr extra eofP : Packet)
    (fps rps : List Packet) (lv : List Nat) (rest : List ReadEvent)
    (hstate : c.state = ConnectionState.CONNECTED)
    (hopen : c.connOpen = true)
    (hres : classify hdr.body = PType.RESULT)
    (hN : readEncodedLen hdr.body = some (fps.length, lv))
    (hfs : ∀ p ∈ fps, classify p.body ≠ PType.ERR)
    (hextra : classify extra.body = PType.EOF)
    (hrs : ∀ p ∈ rps, classify p.body ≠ PType.ERR ∧ classify p.body ≠ PType.EOF)
    (heof : classify eofP.body = PType.EOF) :
    execute c true
      (ReadEvent.success hdr ::
        (fps.map ReadEvent.success ++
          ((if lessThan57 c.serverVersion then [ReadEvent.success extra] else []) ++
            (rps.map ReadEvent.success ++ ReadEvent.success eofP :: rest)))) =
      (c, Except.ok
        ⟨none, none, some (fps.map fun p => parseField p.body),
         some (rps.map fun p => parseRow p.body (fps.map fun q => parseField q.body))⟩,
       rest) := by
  have hhdrOK : classify hdr.body ≠ PType.OK := by rw [hres]; decide
  have hhdrERR : classify hdr.body ≠ PType.ERR := by rw [hres]; decide
  have hextraERR : classify extra.body ≠ PType.ERR := by rw [hextra]; decide
  have hfin := finishRows_map rps c (fps.map fun p => parseField p.body)
    eofP rest hopen hrs heof
  by_cases hless : lessThan57 c.serverVersion
  · have hnx := nextPacket_success_eq c extra
      (rps.map ReadEvent.success ++ ReadEvent.success eofP :: rest) hopen hextraERR
    simp only [execute, hstate, if_pos, if_true,
      nextPacket_success_eq c hdr _ hopen hhdrERR, hN,
      readFields_map fps c _ hopen hfs, hless]
    simp [hhdrOK, List.singleton_append, hnx, hfin]
  · simp only [execute, hstate, if_pos, if_true,
      nextPacket_success_eq c hdr _ hopen hhdrERR, hN,
      readFields_map fps c _ hopen hfs, hless]
    simp [hhdrOK, hless, hfin]

/-! ## Claim theorems -/

/-- C1: a result-set response in `execute` (first response packet not
OK-classified): the first length-encoded integer of the header packet
is the column count, exactly that many further packets are parsed as
`FieldInfo` in arrival order, then packets are read in a loop — an
EOF-classified packet stops it, any other is decoded as a row with the
captured field list and appended — and `execute` returns rows and
fields with `affectedRows`/`lastInsertId` absent.  (The legacy
pre-5.7 extra EOF packet is the subject of C4; here the recorded
server version is a modern one, `lessThan57` false.) -/
theorem claim_C1_result_set_flow (c : Conn) (hdr eofP : Packet)
    (fps rps : List Packet) (lv : List Nat) (rest : List ReadEvent)
    (hstate : c.state = ConnectionState.CONNECTED)
    (hopen : c.connOpen = true)
    (hless : lessThan57 c.serverVersion = false)
    (hres : classify hdr.body = PType.RESULT)
    (hN : readEncodedLen hdr.body = some (fps.length, lv))
    (hfs : ∀ p ∈ fps, classify p.body ≠ PType.ERR)
    (hrs : ∀ p ∈ rps, classify p.body ≠ PType.ERR ∧ classify p.body ≠ PType.EOF)
    (heof : classify eofP.body = PType.EOF) :
    execute c true
      (ReadEvent.success hdr ::
        (fps.map ReadEvent.success ++
          (rps.map ReadEvent.success ++ ReadEvent.success eofP :: rest))) =
      (c, Except.ok
        ⟨none, none, some (fps.map fun p => parseField p.body),
         some (rps.map fun p => parseRow p.body (fps.map fun q => parseField q.body))⟩,
       rest) := by
  have h := execute_resultSet c hdr eofP eofP fps rps lv rest
    hstate hopen hres hN hfs heof hrs heof
  simpa [hless] using h

/-- C1 witness: a two-column, one-row result set against a MySQL 8
connection. -/
theorem claim_C1_result_set_flow_witness :
    execute ⟨ConnectionState.CONNECTED, 0, "8.0.0", true, true, false⟩ true
      [ReadEvent.success ⟨[2]⟩, ReadEvent.success ⟨[3, 1]⟩, ReadEvent.success ⟨[4]⟩,
       ReadEvent.success ⟨[7, 7]⟩, ReadEvent.success ⟨[0xfe]⟩] =
      (⟨ConnectionState.CONNECTED, 0, "8.0.0", true, true, false⟩,
       Except.ok
        ⟨none, none, some [⟨[3, 1]⟩, ⟨[4]⟩],
         some [⟨[7, 7], [⟨[3, 1]⟩, ⟨[4]⟩]⟩]⟩, []) := by
  exact claim_C1_result_set_flow
    ⟨ConnectionState.CONNECTED, 0, "8.0.0", true, true, false⟩
    ⟨[2]⟩ ⟨[0xfe]⟩ [⟨[3, 1]⟩, ⟨[4]⟩] [⟨[7, 7]⟩] [] []
    rfl rfl (by decide) (by decide) (by decide) (by decide) (by decide) (by decide)

/-- C2: an OK-classified first response in `execute` skips the 1-byte
marker, reads `affectedRows` then `lastInsertId` as two consecutive
length-encoded integers, and returns exactly those two values with
`rows` and `fields` absent. -/
theorem claim_C2_ok_path (c : Conn) (p : Packet) (evs : List ReadEvent)
    (ar li : Nat) (b2 b3 : List Nat)
    (hstate : c.state = ConnectionState.CONNECTED)
    (hopen : c.connOpen = true)
    (hok : classify p.body = PType.OK)
    (h1 : readEncodedLen (p.body.drop 1) = some (ar, b2))
    (h2 : readEncodedLen b2 = some (li, b3)) :
    execute c true (ReadEvent.success p :: evs) =
      (c, Except.ok ⟨some ar, some li, none, none⟩, evs) := by
  have hne : classify p.body ≠ PType.ERR := by rw [hok]; decide
  have h1t : readEncodedLen p.body.tail = some (ar, b2) := by
    simpa [List.drop_one] using h1
  simp [execute, hstate, nextPacket_success_eq c p evs hopen hne, hok, h1t, h2]

/-- C2 witness: the scripted INSERT response of the spec — an OK packet
with `affectedRows = 1`, `lastInsertId = 42`. -/
theorem claim_C2_ok_path_witness :
    execute ⟨ConnectionState.CONNECTED, 0, "8.0.0", true, true, false⟩ true
      [ReadEvent.success ⟨[0x00, 1, 42]⟩] =
      (⟨ConnectionState.CONNECTED, 0, "8.0.0", true, true, false⟩,
       Except.ok ⟨some 1, some 42, none, none⟩, []) := by
  exact claim_C2_ok_path ⟨ConnectionState.CONNECTED, 0, "8.0.0", true, true, false⟩
    ⟨[0x00, 1, 42]⟩ [] 1 42 [42] []
    rfl rfl (by decide) (by decide) (by decide)

/-- C4: during a result-set response, exactly one extra packet (the
legacy EOF marker after the field list) is consumed before the row loop
begins when `lessThan57()` holds for the recorded `serverVersion`, and
no extra packet is consumed otherwise: the event scripts of the two
cases differ precisely by that one packet and give the same result. -/
theorem claim_C4_legacy_extra_eof (c : Conn) (hdr extra eofP : Packet)
    (fps rps : List Packet) (lv : List Nat) (rest : List ReadEvent)
    (hstate : c.state = ConnectionState.CONNECTED)
    (hopen : c.connOpen = true)
    (hres : classify hdr.body = PType.RESULT)
    (hN : readEncodedLen hdr.body = some (fps.length, lv))
    (hfs : ∀ p ∈ fps, classify p.body ≠ PType.ERR)
    (hextra : classify extra.body = PType.EOF)
    (hrs : ∀ p ∈ rps, classify p.body ≠ PType.ERR ∧ classify p.body ≠ PType.EOF)
    (heof : classify eofP.body = PType.EOF) :
    execute c true
      (ReadEvent.success hdr ::
        (fps.map ReadEvent.success ++
          ((if lessThan57 c.serverVersion then [ReadEvent.success extra] else []) ++
            (rps.map ReadEvent.success ++ ReadEvent.success eofP :: rest)))) =
      (c, Except.ok
        ⟨none, none, some (fps.map fun p => parseField p.body),
         some (rps.map fun p => parseRow p.body (fps.map fun q => parseField q.body))⟩,
       rest) :=
  execute_resultSet c hdr extra eofP fps rps lv rest
    hstate hopen hres hN hfs hextra hrs heof

/-- C4 witness: a MySQL 5.6 connection (`lessThan57` true) consuming
the legacy EOF marker between the single field packet and the row
data. -/
theorem claim_C4_legacy_extra_eof_witness :
    execute ⟨ConnectionState.CONNECTED, 0, "5.6.10", true, true, false⟩ true
      [ReadEvent.success ⟨[1]⟩, ReadEvent.success ⟨[5]⟩, ReadEvent.success ⟨[0xfe]⟩,
       ReadEvent.success ⟨[9]⟩, ReadEvent.success ⟨[0xfe, 0]⟩] =
      (⟨ConnectionState.CONNECTED, 0, "5.6.10", true, true, false⟩,
       Except.ok
        ⟨none, none, some [⟨[5]⟩], some [⟨[9], [⟨[5]⟩]⟩]⟩, []) := by
  exact claim_C4_legacy_extra_eof
    ⟨ConnectionState.CONNECTED, 0, "5.6.10", true, true, false⟩
    ⟨[1]⟩ ⟨[0xfe]⟩ ⟨[0xfe, 0]⟩ [⟨[5]⟩] [⟨[9]⟩] [] []
    rfl rfl (by decide) (by decide) (by decide) (by decide) (by decide) (by decide)

/-- C3: `lessThan57` compares version strings lexicographically (not
numerically): true on "5.6.10", false on "5.7.0", true on
"5.5.64-MariaDB-1~trusty" (segment before the first "-" compared when
the second "-"-separated segment is literally "MariaDB"), false on the
MariaDB-10+ form "5.5.5-10.4.10-MariaDB-1:10.4.10+maria~bionic".  The
final conjunct shows the comparison is lexicographic text, not numeric:
5.62 ≥ 5.7 numerically, yet the string "5.62.0" compares below
"5.7.0". -/
theorem claim_C3_lessThan57_policy :
    lessThan57 "5.6.10" = true
    ∧ lessThan57 "5.7.0" = false
    ∧ lessThan57 "5.5.64-MariaDB-1~trusty" = true
    ∧ lessThan57 "5.5.5-10.4.10-MariaDB-1:10.4.10+maria~bionic" = false
    ∧ lessThan57 "5.62.0" = true := by
  decide

/-- C7: `close()` never fails — it is a total function of the
connection — and from any state, however often it is repeated, it
drives the state to CLOSED, it is idempotent (an error-triggered close
followed by an explicit `close()` lands in the same configuration), and
it closes the socket whenever `this.conn` was ever set. -/
theorem claim_C7_close_total (c : Conn) (n : Nat) :
    (close c).state = ConnectionState.CLOSED
    ∧ close (close c) = close c
    ∧ (close^[n + 1] c).state = ConnectionState.CLOSED
    ∧ (c.connOpen = true → (close c).sockOpen = false) := by
  refine ⟨rfl, ?_, ?_, ?_⟩
  · cases h : c.connOpen <;> simp [close, socketClose, h]
  · rw [Function.iterate_succ_apply']
    rfl
  · intro h
    simp [close, socketClose, h]

/-- C7 witness: a connection that was opened and already closed once:
repeated `close` stays CLOSED and the socket ends closed. -/
theorem claim_C7_close_total_witness :
    (close ⟨ConnectionState.CLOSED, 0, "8.0.0", true, false, false⟩).state
        = ConnectionState.CLOSED
    ∧ (⟨ConnectionState.CLOSED, 0, "8.0.0", true, false, false⟩ : Conn).connOpen = true
    ∧ (close ⟨ConnectionState.CLOSED, 0, "8.0.0", true, false, false⟩).sockOpen = false := by
  refine ⟨(claim_C7_close_total _ 0).1, rfl,
    (claim_C7_close_total ⟨ConnectionState.CLOSED, 0, "8.0.0", true, false, false⟩ 0).2.2.2 rfl⟩

/-- C6: `execute` (and `query`, which wraps it) called while the state
is not CONNECTED fails with a `ConnnectionError` before any socket
operation — the scripted events are untouched and the outcome does not
depend on whether a send would have succeeded — with message
"Connection is closed" when CLOSED and "Must be connected first" when
CONNECTING or CLOSING. -/
theorem claim_C6_guard (c : Conn) (sendOk : Bool) (evs : List ReadEvent)
    (h : c.state ≠ ConnectionState.CONNECTED) :
    execute c sendOk evs =
      (c, Except.error (Err.conn
        (if c.state = ConnectionState.CLOSED then "Connection is closed"
         else "Must be connected first")), evs)
    ∧ query c sendOk evs =
      (c, Except.error (Err.conn
        (if c.state = ConnectionState.CLOSED then "Connection is closed"
         else "Must be connected first")), evs) := by
  by_cases hc : c.state = ConnectionState.CLOSED
  · constructor <;> simp [execute, query, h, hc]
  · constructor <;> simp [execute, query, h, hc]

/-- C6 witness: a CLOSED connection fails with "Connection is closed",
a CONNECTING one with "Must be connected first"; neither consumes the
scripted event. -/
theorem claim_C6_guard_witness :
    execute ⟨ConnectionState.CLOSED, 0, "", false, false, false⟩ true
        [ReadEvent.success ⟨[0]⟩] =
      (⟨ConnectionState.CLOSED, 0, "", false, false, false⟩,
       Except.error (Err.conn "Connection is closed"), [ReadEvent.success ⟨[0]⟩])
    ∧ query ⟨ConnectionState.CONNECTING, 0, "", false, false, false⟩ true [] =
      (⟨ConnectionState.CONNECTING, 0, "", false, false, false⟩,
       Except.error (Err.conn "Must be connected first"), []) := by
  have h1 := claim_C6_guard ⟨ConnectionState.CLOSED, 0, "", false, false, false⟩
    true [ReadEvent.success ⟨[0]⟩] (by decide)
  have h2 := claim_C6_guard ⟨ConnectionState.CONNECTING, 0, "", false, false, false⟩
    true [] (by decide)
  exact ⟨h1.1, h2.2⟩

/-- C5: when the response timer fires (armed before every packet read
with `config.timeout`, default 30000 ms) the callback sets the
timed-out flag and force-closes, and the pending `execute` fails with
`ResponseTimeoutError` — an error distinct from the generic read and IO
errors — leaving the connection CLOSED. -/
theorem claim_C5_timeout (c : Conn) (rest : List ReadEvent)
    (hstate : c.state = ConnectionState.CONNECTED) (hopen : c.connOpen = true) :
    execute c true (ReadEvent.timeout :: rest) =
      (close { c with timedOut := true },
       Except.error (Err.timeout "Connection read timed out"), rest)
    ∧ (close { c with timedOut := true }).state = ConnectionState.CLOSED
    ∧ (∀ m m' : String, Err.timeout m ≠ Err.read m')
    ∧ (∀ m : String, Err.timeout m ≠ Err.io)
    ∧ armedTimeout ⟨none, none⟩ = 30000
    ∧ (∀ t : Nat, t ≠ 0 → armedTimeout ⟨none, some t⟩ = t) := by
  refine ⟨?_, rfl, by simp, by simp, rfl, ?_⟩
  · simp [execute, hstate, nextPacket, hopen]
  · intro t ht
    simp [armedTimeout, ht]

/-- C5 witness: a CONNECTED connection whose next read times out fails
with `ResponseTimeoutError` and ends CLOSED. -/
theorem claim_C5_timeout_witness :
    execute ⟨ConnectionState.CONNECTED, 0, "8.0.0", true, true, false⟩ true
        [ReadEvent.timeout] =
      (close ⟨ConnectionState.CONNECTED, 0, "8.0.0", true, true, true⟩,
       Except.error (Err.timeout "Connection read timed out"), [])
    ∧ (close ⟨ConnectionState.CONNECTED, 0, "8.0.0", true, true, true⟩).state
        = ConnectionState.CLOSED := by
  have h := claim_C5_timeout ⟨ConnectionState.CONNECTED, 0, "8.0.0", true, true, false⟩
    [] rfl rfl
  exact ⟨h.1, h.2.1⟩

/-- The connection configuration reached inside `_connect` after the
TCP socket is opened, the auth response sent, and the handshake's
`serverVersion`/`serverCapabilities` recorded (state transiently
CONNECTING), just before the server's second reply is inspected. -/
def connAfterAuth (c : Conn) (hs : HandshakePacket) : Conn :=
  { state := ConnectionState.CONNECTING
    capabilities := hs.serverCapabilities
    serverVersion := hs.serverVersion
    connOpen := true
    sockOpen := true
    timedOut := c.timedOut }

theorem connect_second_err (c : Conn) (cfg : ClientConfig)
    (ph : List Nat → HandshakePacket) (hsP : Packet) (tail : List Nat)
    (rest : List ReadEvent) (hhs : classify hsP.body ≠ PType.ERR) :
    connect c cfg ph true true
      (ReadEvent.success hsP :: ReadEvent.success ⟨0xff :: tail⟩ :: rest) =
      (close (connAfterAuth c (ph hsP.body)),
       Except.error (Err.server (parseError tail).message), rest) := by
  have h1 := nextPacket_success_eq { c with connOpen := true, sockOpen := true }
    hsP (ReadEvent.success ⟨0xff :: tail⟩ :: rest) rfl hhs
  have h2 : nextPacket (connAfterAuth c (ph hsP.body))
      (ReadEvent.success ⟨0xff :: tail⟩ :: rest) =
      (connAfterAuth c (ph hsP.body),
       Except.error (Err.server (parseError tail).message), rest) := by
    simp [nextPacket, connAfterAuth, classify]
  simp only [connAfterAuth] at h2
  simp only [connect, h1]
  simp only [h2]
  simp [close, socketClose, connAfterAuth]

theorem connect_second_ok (c : Conn) (cfg : ClientConfig)
    (ph : List Nat → HandshakePacket) (hsP p2 : Packet) (rest : List ReadEvent)
    (hhs : classify hsP.body ≠ PType.ERR)
    (hp2 : classify p2.body ≠ PType.ERR)
    (hcs : cfg.charset = none) :
    connect c cfg ph true true
      (ReadEvent.success hsP :: ReadEvent.success p2 :: rest) =
      ({ connAfterAuth c (ph hsP.body) with state := ConnectionState.CONNECTED },
       Except.ok (), rest) := by
  have hff : p2.body.head? ≠ some 0xff := fun hh => hp2 (classify_head_ff _ hh)
  have h1 := nextPacket_success_eq { c with connOpen := true, sockOpen := true }
    hsP (ReadEvent.success p2 :: rest) rfl hhs
  have h2 := nextPacket_success_eq (connAfterAuth c (ph hsP.body)) p2 rest rfl hp2
  simp only [connAfterAuth] at h2
  simp only [connect, h1]
  simp only [h2]
  simp [hff, hcs, connAfterAuth]

/-- C9: when the server's second reply during `connect()` is an ERR
packet (leading byte 0xff), `connect()` fails with the server-supplied
error message and the connection is left CLOSED, the socket having been
closed before the error propagates. -/
theorem claim_C9_connect_err (c : Conn) (cfg : ClientConfig)
    (ph : List Nat → HandshakePacket) (hsP : Packet) (tail : List Nat)
    (rest : List ReadEvent) (hhs : classify hsP.body ≠ PType.ERR) :
    connect c cfg ph true true
      (ReadEvent.success hsP :: ReadEvent.success ⟨0xff :: tail⟩ :: rest) =
      (close (connAfterAuth c (ph hsP.body)),
       Except.error (Err.server (parseError tail).message), rest)
    ∧ (close (connAfterAuth c (ph hsP.body))).state = ConnectionState.CLOSED :=
  ⟨connect_second_err c cfg ph hsP tail rest hhs, rfl⟩

/-- C9 witness: a fresh connection whose second reply is the ERR packet
`ff 10 04 41 42` (code 0x0410, message bytes 41 42): `connect` fails with
the server's message bytes and ends CLOSED with the socket closed. -/
theorem claim_C9_connect_err_witness :
    connect ⟨ConnectionState.CONNECTING, 0, "", false, false, false⟩ ⟨none, none⟩
      (fun _ => ⟨10, "5.7.30", 7, [1, 2], 5, 33⟩) true true
      [ReadEvent.success ⟨[10]⟩, ReadEvent.success ⟨[0xff, 16, 4, 65, 66]⟩] =
      (⟨ConnectionState.CLOSED, 5, "5.7.30", true, false, false⟩,
       Except.error (Err.server [65, 66]), []) := by
  exact (claim_C9_connect_err ⟨ConnectionState.CONNECTING, 0, "", false, false, false⟩
    ⟨none, none⟩ (fun _ => ⟨10, "5.7.30", 7, [1, 2], 5, 33⟩) ⟨[10]⟩ [16, 4, 65, 66] []
    (by decide)).1

/-- C10: `serverVersion` and `capabilities` are recorded on the
connection from the handshake packet after the auth response is sent
but before the server's second reply is inspected: they end up set both
when `connect()` completes CONNECTED and when it fails on a server ERR
second reply (where the connection ends CLOSED). -/
theorem claim_C10_handshake_recorded (c : Conn) (cfg : ClientConfig)
    (ph : List Nat → HandshakePacket) (hsP p2 : Packet) (rest : List ReadEvent)
    (hhs : classify hsP.body ≠ PType.ERR) (hcs : cfg.charset = none) :
    (classify p2.body ≠ PType.ERR →
      connect c cfg ph true true
        (ReadEvent.success hsP :: ReadEvent.success p2 :: rest) =
        ({ connAfterAuth c (ph hsP.body) with state := ConnectionState.CONNECTED },
         Except.ok (), rest))
    ∧ (∀ tail : List Nat, p2.body = 0xff :: tail →
        (connect c cfg ph true true
          (ReadEvent.success hsP :: ReadEvent.success p2 :: rest)).1.serverVersion
            = (ph hsP.body).serverVersion
        ∧ (connect c cfg ph true true
            (ReadEvent.success hsP :: ReadEvent.success p2 :: rest)).1.capabilities
            = (ph hsP.body).serverCapabilities
        ∧ (connect c cfg ph true true
            (ReadEvent.success hsP :: ReadEvent.success p2 :: rest)).1.state
            = ConnectionState.CLOSED) := by
  constructor
  · intro hp2
    exact connect_second_ok c cfg ph hsP p2 rest hhs hp2 hcs
  · intro tail htail
    obtain ⟨b⟩ := p2
    simp only at htail
    subst htail
    rw [connect_second_err c cfg ph hsP tail rest hhs]
    exact ⟨rfl, rfl, rfl⟩

/-- C10 witness: with a handshake announcing version "8.0.22" and
capabilities 9, both an OK second reply (ending CONNECTED) and an ERR
second reply (ending CLOSED) leave serverVersion/capabilities
recorded. -/
theorem claim_C10_handshake_recorded_witness :
    connect ⟨ConnectionState.CONNECTING, 0, "", false, false, false⟩ ⟨none, none⟩
      (fun _ => ⟨10, "8.0.22", 3, [], 9, 45⟩) true true
      [ReadEvent.success ⟨[10]⟩, ReadEvent.success ⟨[0]⟩] =
      (⟨ConnectionState.CONNECTED, 9, "8.0.22", true, true, false⟩,
       Except.ok (), [])
    ∧ ((connect ⟨ConnectionState.CONNECTING, 0, "", false, false, false⟩ ⟨none, none⟩
        (fun _ => ⟨10, "8.0.22", 3, [], 9, 45⟩) true true
        [ReadEvent.success ⟨[10]⟩,
         ReadEvent.success ⟨[0xff, 1, 0, 65]⟩]).1.serverVersion = "8.0.22"
      ∧ (connect ⟨ConnectionState.CONNECTING, 0, "", false, false, false⟩ ⟨none, none⟩
          (fun _ => ⟨10, "8.0.22", 3, [], 9, 45⟩) true true
          [ReadEvent.success ⟨[10]⟩,
           ReadEvent.success ⟨[0xff, 1, 0, 65]⟩]).1.capabilities = 9
      ∧ (connect ⟨ConnectionState.CONNECTING, 0, "", false, false, false⟩ ⟨none, none⟩
          (fun _ => ⟨10, "8.0.22", 3, [], 9, 45⟩) true true
          [ReadEvent.success ⟨[10]⟩,
           ReadEvent.success ⟨[0xff, 1, 0, 65]⟩]).1.state = ConnectionState.CLOSED) := by
  refine ⟨?_, ?_⟩
  · exact (claim_C10_handshake_recorded
      ⟨ConnectionState.CONNECTING, 0, "", false, false, false⟩ ⟨none, none⟩
      (fun _ => ⟨10, "8.0.22", 3, [], 9, 45⟩) ⟨[10]⟩ ⟨[0]⟩ []
      (by decide) rfl).1 (by decide)
  · exact (claim_C10_handshake_recorded
      ⟨ConnectionState.CONNECTING, 0, "", false, false, false⟩ ⟨none, none⟩
      (fun _ => ⟨10, "8.0.22", 3, [], 9, 45⟩) ⟨[10]⟩ ⟨[0xff, 1, 0, 65]⟩ []
      (by decide) rfl).2 [1, 0, 65] rfl

/-- C8 counterexample: CLOSED is not terminal — `connect()` performs no
state guard, so calling it on a CLOSED connection (with a successful
handshake script) transitions the state back to CONNECTED. -/
theorem claim_C8_closed_terminal_cex :
    ((connect ⟨ConnectionState.CLOSED, 0, "", true, false, false⟩ ⟨none, none⟩
        (fun _ => ⟨10, "8.0.0", 1, [], 0, 33⟩) true true
        [ReadEvent.success ⟨[10]⟩, ReadEvent.success ⟨[0]⟩]).1.state
      = ConnectionState.CONNECTED)
    ∧ ConnectionState.CONNECTED ≠ ConnectionState.CLOSED := by
  exact ⟨rfl, by decide⟩

/-- C8 (amended): CLOSED is terminal for `execute`, `query` and
`close` — while CLOSED, `execute` and `query` fail leaving the
connection unchanged, and `close` ends with state CLOSED — but
`connect`, which performs no state guard, can drive a CLOSED connection
back to CONNECTING and then CONNECTED. -/
theorem claim_C8_closed_terminal_amended (c : Conn) (sendOk : Bool)
    (evs : List ReadEvent) (h : c.state = ConnectionState.CLOSED) :
    (execute c sendOk evs).1 = c
    ∧ (query c sendOk evs).1 = c
    ∧ (close c).state = ConnectionState.CLOSED := by
  refine ⟨?_, ?_, rfl⟩
  · simp [execute, h]
  · simp [query, execute, h]

/-- C8 amended-claim witness: a CLOSED connection stays unchanged under
`execute` and `query`, and `close` keeps it CLOSED. -/
theorem claim_C8_closed_terminal_amended_witness :
    (execute ⟨ConnectionState.CLOSED, 0, "", true, false, false⟩ true
      [ReadEvent.success ⟨[0]⟩]).1 = ⟨ConnectionState.CLOSED, 0, "", true, false, false⟩
    ∧ (query ⟨ConnectionState.CLOSED, 0, "", true, false, false⟩ true
        [ReadEvent.success ⟨[0]⟩]).1 = ⟨ConnectionState.CLOSED, 0, "", true, false, false⟩
    ∧ (close ⟨ConnectionState.CLOSED, 0, "", true, false, false⟩).state
        = ConnectionState.CLOSED := by
  exact claim_C8_closed_terminal_amended
    ⟨ConnectionState.CLOSED, 0, "", true, false, false⟩ true
    [ReadEvent.success ⟨[0]⟩] rfl

end DenoMysql
